import Mathlib

/-!
Shallow embedding of the local-document RAG agent (source files `agent.py`,
`app.py`, `config.py`) and proofs about its answer-length controller, its
caller-facing query contract, its document-add / reindex lifecycle, and its
persisted-index path derivation.

Modelling conventions:
- Python strings are Lean `String`; all character-level operations are defined
  by structural recursion on `String.data` so that concrete instances evaluate
  inside the kernel.
- Python whitespace (for `str.strip` / `str.rstrip`) is modelled by
  `Char.isWhitespace`.
- The external generation provider (`self.llm.invoke`) is a parameter of type
  `Option (String → Except Unit String)`: `none` models an absent/None `llm`
  attribute, `Except.error` models a raised exception, `Except.ok` a returned
  completion.
- The external QA chain (`self.qa_chain.invoke`) is a parameter of type
  `Option (String → Except PyExn (Option String))`: the `Option String` is the
  presence of the "result" key of the returned dict, `Except.error` a raised
  exception carrying the Python exception type name and message.
- The document splitter and the embedding backend of the index build are
  external library collaborators; they enter the lifecycle model as an
  environment (`BuildEnv`) holding an arbitrary split function and flags for
  whether the embedding build / index load succeed.
-/

/-! ## Python string primitives -/

/-- Python `str.rstrip()` on a character list: drop trailing whitespace. -/
def pyRstripChars (l : List Char) : List Char :=
  (l.reverse.dropWhile Char.isWhitespace).reverse

/-- Python `str.rstrip()`. -/
def pyRstrip (s : String) : String := String.mk (pyRstripChars s.data)

/-- Python `str.strip()`: drop leading and trailing whitespace. -/
def pyStrip (s : String) : String :=
  String.mk (pyRstripChars (s.data.dropWhile Char.isWhitespace))

/-- Python slice `s[:n]` for an arbitrary (possibly negative) integer bound. -/
def pySliceTo (s : String) (n : Int) : String :=
  if n < 0 then String.mk (s.data.take (s.data.length - n.natAbs))
  else String.mk (s.data.take n.toNat)

/-- Decides whether `pat` is a prefix of `xs` (used for substring search). -/
def charsStartWith : List Char → List Char → Bool
  | [], _ => true
  | _ :: _, [] => false
  | a :: asx, b :: bs => a == b && charsStartWith asx bs

/-- Decides whether `pat` occurs contiguously inside `xs`. -/
def charsContain (pat : List Char) : List Char → Bool
  | [] => charsStartWith pat []
  | c :: cs => charsStartWith pat (c :: cs) || charsContain pat cs

/-- Python `needle in hay` on strings. -/
def pyIn (needle hay : String) : Bool := charsContain needle.data hay.data

/-- Python `s.endswith(suffix)`. -/
def strEndsWith (s suffix : String) : Bool :=
  charsStartWith suffix.data.reverse s.data.reverse

/-! ## Answer Length Controller (`RAGAgent._summarize_text`, agent.py 151-172) -/

/-- The deterministic fallback `text[:max_length].rstrip() + "..."` used on
lines 158, 170 and 172 of agent.py: slice to `max_length` characters, strip
trailing whitespace, append the three-character ellipsis marker. -/
def truncateWithEllipsis (text : String) (maxLength : Int) : String :=
  pyRstrip (pySliceTo text maxLength) ++ "..."

/-- Modelled from the spec words for the fallback, for comparison with the
source operation `truncateWithEllipsis`: "truncating the original text to
`max_length` characters and appending an ellipsis marker", with no whitespace
stripping in between. -/
def specTruncateEllipsis (text : String) (maxLength : Int) : String :=
  pySliceTo text maxLength ++ "..."

/-- The summarization instruction prompt assembled on lines 160-164 of
agent.py. -/
def summaryPrompt (maxLength : Int) (text : String) : String :=
  "Summarize the following answer to be at most " ++ toString maxLength ++
  " characters. Keep key facts and be concise.\n\nAnswer:\n" ++ text ++
  "\n\nSummary:"

/-- `RAGAgent._summarize_text(text, max_length)` (agent.py 151-172).
`llm` is the generation provider handle: `none` when the `llm` attribute is
absent or None; otherwise a function from prompt to raised-or-returned
completion. -/
def RAGAgent.summarize_text (llm : Option (String → Except Unit String))
    (text : String) (maxLength : Int) : String :=
  if text = "" ∨ maxLength ≤ 0 then ""
  else if (text.length : Int) ≤ maxLength then text
  else
    match llm with
    | none => truncateWithEllipsis text maxLength
    | some invoke =>
      match invoke (summaryPrompt maxLength text) with
      | Except.error _ => truncateWithEllipsis text maxLength
      | Except.ok raw =>
        let summary := pyStrip raw
        if (summary.length : Int) ≤ maxLength then summary
        else truncateWithEllipsis summary maxLength

/-! ## Caller-facing query (`RAGAgent.query`, agent.py 208-238) -/

/-- A raised Python exception, as observed by the handler in `query`:
`typeName` models `type(e).__name__` and `message` models `str(e)`. -/
structure PyExn where
  typeName : String
  message : String
deriving DecidableEq

/-- The fixed reply when `self.qa_chain` is not initialized (agent.py 220). -/
def notInitializedMsg : String :=
  "Agent not properly initialized. Make sure Ollama is running."

/-- The reply for connection-classified failures (agent.py 234-237). -/
def ollamaUnreachableMsg : String :=
  "Error: Ollama is unreachable. Start it with `ollama serve` " ++
  "or set OLLAMA_BASE_URL to the correct endpoint."

/-- The generic failure reply (agent.py 238). -/
def queryErrorMsg (e : PyExn) : String :=
  "Error processing query: " ++ e.typeName ++ ": " ++ e.message

/-- `MAX_RESPONSE_LENGTH` from config.py line 28. -/
def MAX_RESPONSE_LENGTH : Int := 700

/-- The environment `RAGAgent.query` runs against: the QA chain handle
(`none` when `self.qa_chain` is falsy), the generation provider handle used by
the length controller, and `getattr(config, "MAX_RESPONSE_LENGTH", None)`. -/
structure QueryEnv where
  chain : Option (String → Except PyExn (Option String))
  llm : Option (String → Except Unit String)
  maxResponseLength : Option Int

/-- `RAGAgent.query(question)` (agent.py 208-238). The surrounding
`try/except` is the `Except` match on the chain invocation; the answer is the
"result" field of the chain output, defaulted to "No answer found";
`max_length = getattr(config, "MAX_RESPONSE_LENGTH", None) or 0` is
`env.maxResponseLength.getD 0`, and the controller runs only when that value
is truthy (nonzero) and the answer is strictly longer. -/
def RAGAgent.query (env : QueryEnv) (question : String) : String :=
  match env.chain with
  | none => notInitializedMsg
  | some invoke =>
    match invoke question with
    | Except.ok res =>
      let answer := res.getD "No answer found"
      let maxLength := env.maxResponseLength.getD 0
      if maxLength ≠ 0 ∧ maxLength < (answer.length : Int) then
        RAGAgent.summarize_text env.llm answer maxLength
      else answer
    | Except.error e =>
      if pyIn "Connection refused" e.message || pyIn "Max retries exceeded" e.message
      then ollamaUnreachableMsg
      else queryErrorMsg e

/-! ## Web-layer endpoint (`query_agent`, app.py 25-48) -/

/-- A Flask JSON reply body: either a body with a "response" field or a body
with an "error" field. -/
inductive ApiBody where
  | jsonResponse (s : String)
  | jsonError (s : String)
deriving DecidableEq

/-- `data.get(key)` on the parsed request dict. -/
def dictGet (data : List (String × String)) (k : String) : Option String :=
  (data.find? (fun p => p.1 == k)).map (fun p => p.2)

/-- `query_agent` (app.py 25-48): `reqData` is `request.json` (`none` when the
body is not a JSON object). `RAGAgent.query` is total in this model, so the
500 handler of the route is unreachable here; the two 400 branches and the 200
branch are modelled exactly. -/
def app.queryAgent (env : QueryEnv) (reqData : Option (List (String × String))) :
    ApiBody × Nat :=
  match reqData with
  | none => (ApiBody.jsonError "Invalid request", 400)
  | some data =>
    if data.isEmpty then (ApiBody.jsonError "Invalid request", 400)
    else
      match dictGet data "query" with
      | none => (ApiBody.jsonError "Query is required", 400)
      | some q =>
        if q = "" then (ApiBody.jsonError "Query is required", 400)
        else (ApiBody.jsonResponse (RAGAgent.query env q), 200)

/-! ## Index lifecycle (`_initialize_agent`, `add_document`, `rebuild_index`) -/

/-- Environment for the index-build path: the chunk splitter
(`RecursiveCharacterTextSplitter.split_documents`, an external library
collaborator, kept abstract), whether `FAISS.from_documents` (the embedding
provider round-trip) succeeds, whether `FAISS.load_local` on an existing
persisted index succeeds, and `time.time()` for the default document name. -/
structure BuildEnv where
  split : String → List String
  embedOk : Bool
  loadOk : Bool
  now : Nat

/-- The mutable state of a `RAGAgent` relevant to the lifecycle claims:
the contents of the documents directory as (filename, content) pairs, the
persisted FAISS index at `faiss_index_path` (as its chunk list), the in-memory
`vector_store`, and whether `qa_chain` is initialized. -/
structure AgentState where
  files : List (String × String)
  persistedIndex : Option (List String)
  vectorStore : Option (List String)
  qaChainReady : Bool

/-- The documents the two directory loaders pick up (agent.py 74-84): the
contents of `**/*.txt` files, then of `**/*.pdf` files. -/
def loadableDocs (files : List (String × String)) : List String :=
  (files.filter (fun p => strEndsWith p.1 ".txt")).map (fun p => p.2) ++
  (files.filter (fun p => strEndsWith p.1 ".pdf")).map (fun p => p.2)

/-- The sample document written by `_create_sample_document`
(agent.py 174-206) when the directory holds no loadable documents. -/
def sampleDocContent : String :=
  "Sample Document - About Artificial Intelligence\n\n" ++
  "Artificial Intelligence (AI) is the simulation of human intelligence " ++
  "processes by machines,\nespecially computer systems."

/-- Chunking plus `FAISS.from_documents`: the index is modelled as the
concatenated chunk lists of the loaded documents. -/
def buildChunks (split : String → List String) : List String → List String
  | [] => []
  | d :: ds => split d ++ buildChunks split ds

/-- Python `open(path, "w")` into the documents directory: overwrite the
entry when the name exists, else append it. -/
def writeDoc (fs : List (String × String)) (name content : String) :
    List (String × String) :=
  if fs.any (fun p => p.1 == name)
  then fs.map (fun p => if p.1 == name then (name, content) else p)
  else fs ++ [(name, content)]

/-- `RAGAgent._initialize_agent` (agent.py 51-149) as a state transition,
returning the new state and whether it completed without raising. When a
persisted index exists it is loaded; otherwise the documents are loaded (with
the sample-document bootstrap when none are loadable), split, embedded, and
the fresh index is both kept in memory and persisted. A load or embed failure
raises before the corresponding assignment, leaving the index fields as they
were. -/
def RAGAgent.initAgent (env : BuildEnv) (st : AgentState) : AgentState × Bool :=
  match st.persistedIndex with
  | some idx =>
    if env.loadOk then ({ st with vectorStore := some idx, qaChainReady := true }, true)
    else (st, false)
  | none =>
    let files1 := if (loadableDocs st.files).isEmpty
      then st.files ++ [("sample.txt", sampleDocContent)]
      else st.files
    let docs := loadableDocs files1
    if env.embedOk then
      let idx := buildChunks env.split docs
      ({ st with files := files1, vectorStore := some idx,
                 persistedIndex := some idx, qaChainReady := true }, true)
    else ({ st with files := files1 }, false)

/-- The filename chosen by `add_document` (agent.py 252-254): `filename` when
given and truthy, else `document_<int(time.time())>.txt`. -/
def RAGAgent.docName (env : BuildEnv) (filename : Option String) : String :=
  match filename with
  | none => "document_" ++ toString env.now ++ ".txt"
  | some n => if n = "" then "document_" ++ toString env.now ++ ".txt" else n

/-- `RAGAgent.add_document(content, filename)` (agent.py 240-271): write the
document, remove the cached persisted index, then reinitialize the agent
synchronously; the Bool is the True/False return value. -/
def RAGAgent.addDocument (env : BuildEnv) (st : AgentState) (content : String)
    (filename : Option String) : AgentState × Bool :=
  let name := RAGAgent.docName env filename
  RAGAgent.initAgent env
    { st with files := writeDoc st.files name content, persistedIndex := none }

/-- `RAGAgent.rebuild_index()` (agent.py 273-284): remove the cached persisted
index and reinitialize. -/
def RAGAgent.rebuildIndex (env : BuildEnv) (st : AgentState) : AgentState × Bool :=
  RAGAgent.initAgent env { st with persistedIndex := none }

/-! ## Persisted-index path (`__init__`, agent.py 42-43) -/

/-- `self.embeddings_model.replace(":", "_")` — a single-character pattern, so
the replacement acts characterwise. -/
def sanitizeModelName (m : String) : String :=
  String.mk (m.data.map (fun c => if c == ':' then '_' else c))

/-- `os.path.join(docs_dir, f"faiss_index_[safe]")` for the relative component
built on agent.py line 43 (the docs directory has no trailing separator). -/
def RAGAgent.faissIndexPath (docsDir embeddingsModel : String) : String :=
  docsDir ++ "/faiss_index_" ++ sanitizeModelName embeddingsModel

/-! ## Helper lemmas -/

/-- A nonempty string has positive length. -/
theorem strLengthPos {s : String} (h : s ≠ "") : 0 < s.length := by
  cases s with
  | mk l =>
    cases l with
    | nil => exact absurd rfl h
    | cons c cs => simp [String.length]

/-- The degenerate guard of the length controller is false when the bound is
positive and the text strictly exceeds it. -/
theorem summarizeGuardFalse {text : String} {maxLength : Int}
    (h0 : 0 < maxLength) (h1 : maxLength < (text.length : Int)) :
    ¬ (text = "" ∨ maxLength ≤ 0) := by
  rintro (hc | hc)
  · rw [hc] at h1
    have h2 : ((("" : String)).length : Int) = 0 := rfl
    rw [h2] at h1
    omega
  · omega

/-- Text already within the bound passes through the length controller
unchanged, for any provider handle. -/
theorem summarizeTextLeId (llm : Option (String → Except Unit String))
    (text : String) (maxLength : Int) (h : (text.length : Int) ≤ maxLength) :
    RAGAgent.summarize_text llm text maxLength = text := by
  by_cases hs : text = ""
  · subst hs
    simp [RAGAgent.summarize_text]
  · have hpos : 0 < text.length := strLengthPos hs
    have hml : ¬ (maxLength ≤ 0) := by omega
    simp only [RAGAgent.summarize_text]
    rw [if_neg (not_or.mpr ⟨hs, hml⟩), if_pos h]

/-! ## Claim theorems for the Answer Length Controller -/

/-- C1: the spec invariant says `bound(text, max_length)` always returns a
string of length at most `max_length` when `max_length > 0`, for any provider
behavior. The code violates this: on input text "aaaa" with bound 2, both with
an absent provider and with a provider that raises, it returns "aa..." of
length 5 > 2, because the three-character ellipsis is appended after cutting
to `max_length`. This also contradicts the function docstring "Summarize text
to fit within max_length characters". -/
theorem RAGAgent.summarize_text_can_exceed_max_length :
    RAGAgent.summarize_text none "aaaa" 2 = "aa..."
  ∧ RAGAgent.summarize_text
      (some (fun _ => (Except.error () : Except Unit String))) "aaaa" 2 = "aa..."
  ∧ (2 : Int) < ((("aa..." : String)).length : Int) := by
  decide

/-- C2 (counterexample): `bound` is not idempotent. On "ab cd" with bound 3
and no provider, the first application returns "ab..." (the slice "ab " is
rstripped to "ab" before the ellipsis); the second application returns
"ab....", a different string, because the first output already exceeds the
bound and gets truncated again. -/
theorem RAGAgent.summarize_text_not_idempotent_cex :
    RAGAgent.summarize_text none "ab cd" 3 = "ab..."
  ∧ RAGAgent.summarize_text none (RAGAgent.summarize_text none "ab cd" 3) 3 = "ab...."
  ∧ ("ab...." : String) ≠ "ab..." := by
  decide

/-- C2 (amended): re-applying `bound` to its own output is a no-op whenever
that output is within the bound (in particular whenever the provider returned
a short-enough summary, or in the degenerate cases); the premise of the
original claim — that the first output is always within the bound — is what
fails. -/
theorem RAGAgent.summarize_text_idempotent_of_le
    (llm : Option (String → Except Unit String)) (text : String) (maxLength : Int)
    (h : ((RAGAgent.summarize_text llm text maxLength).length : Int) ≤ maxLength) :
    RAGAgent.summarize_text llm (RAGAgent.summarize_text llm text maxLength) maxLength
      = RAGAgent.summarize_text llm text maxLength :=
  summarizeTextLeId llm _ maxLength h

/-- C2 (witness): a concrete instantiation of the amended idempotence
theorem. -/
theorem RAGAgent.summarize_text_idempotent_of_le_witness :
    RAGAgent.summarize_text none (RAGAgent.summarize_text none "abc" 9) 9
      = RAGAgent.summarize_text none "abc" 9 :=
  RAGAgent.summarize_text_idempotent_of_le none "abc" 9 (by decide)

/-- C3 (counterexample): the spec-literal fallback "truncate to max_length
characters and append an ellipsis marker" does not match the code on text
whose truncation ends in whitespace: with a raising provider, input "ab cd"
and bound 3, the code returns "ab..." (the slice "ab " is whitespace-stripped
first), not the spec-literal "ab ...". -/
theorem RAGAgent.fallback_not_plain_slice_cex :
    RAGAgent.summarize_text
      (some (fun _ => (Except.error () : Except Unit String))) "ab cd" 3 = "ab..."
  ∧ specTruncateEllipsis "ab cd" 3 = "ab ..."
  ∧ ("ab..." : String) ≠ "ab ..." := by
  decide

/-- C3 (amended): for text longer than a positive bound, when the provider
call raises, `bound` deterministically returns the original text sliced to
`max_length` characters, with trailing whitespace stripped from the slice and
the ellipsis marker appended (`truncateWithEllipsis`); and when the provider
returns a summary whose stripped form still exceeds the bound, the same
slice-rstrip-ellipsis operation is applied to that stripped summary. -/
theorem RAGAgent.fallback_truncates_with_ellipsis
    (invoke : String → Except Unit String) (text : String) (maxLength : Int)
    (h0 : 0 < maxLength) (h1 : maxLength < (text.length : Int)) :
    (∀ u : Unit, invoke (summaryPrompt maxLength text) = Except.error u →
        RAGAgent.summarize_text (some invoke) text maxLength
          = truncateWithEllipsis text maxLength)
  ∧ (∀ s : String, invoke (summaryPrompt maxLength text) = Except.ok s →
        maxLength < ((pyStrip s).length : Int) →
        RAGAgent.summarize_text (some invoke) text maxLength
          = truncateWithEllipsis (pyStrip s) maxLength) := by
  have hcond := summarizeGuardFalse h0 h1
  have hle : ¬ ((text.length : Int) ≤ maxLength) := by omega
  constructor
  · intro u hu
    simp only [RAGAgent.summarize_text, if_neg hcond, if_neg hle, hu]
  · intro s hs hlong
    have hsle : ¬ (((pyStrip s).length : Int) ≤ maxLength) := by omega
    simp only [RAGAgent.summarize_text, if_neg hcond, if_neg hle, hs, if_neg hsle]

/-- C3 (witness): a concrete instantiation of the amended fallback theorem at
a raising provider. -/
theorem RAGAgent.fallback_truncates_with_ellipsis_witness :
    RAGAgent.summarize_text
      (some (fun _ => (Except.error () : Except Unit String))) "abcd" 2
      = truncateWithEllipsis "abcd" 2 :=
  (RAGAgent.fallback_truncates_with_ellipsis
    (fun _ => (Except.error () : Except Unit String)) "abcd" 2
    (by decide) (by decide)).1 () rfl

/-- C4: the degenerate cases of the length controller — for an empty text or
a bound at most 0 the result is the empty string (defined, not an error), and
any text whose length is within the bound is returned unchanged — for every
provider handle. -/
theorem RAGAgent.summarize_text_degenerate_and_short
    (llm : Option (String → Except Unit String)) (text : String) (maxLength : Int) :
    ((text = "" ∨ maxLength ≤ 0) → RAGAgent.summarize_text llm text maxLength = "")
  ∧ ((text.length : Int) ≤ maxLength → RAGAgent.summarize_text llm text maxLength = text) := by
  constructor
  · intro h
    simp only [RAGAgent.summarize_text, if_pos h]
  · exact summarizeTextLeId llm text maxLength

/-- C4 (witness): concrete instantiations of both degenerate conjuncts. -/
theorem RAGAgent.summarize_text_degenerate_and_short_witness :
    RAGAgent.summarize_text none "" 0 = ""
  ∧ RAGAgent.summarize_text none "abc" 5 = "abc" :=
  ⟨(RAGAgent.summarize_text_degenerate_and_short none "" 0).1 (Or.inl rfl),
   (RAGAgent.summarize_text_degenerate_and_short none "abc" 5).2 (by decide)⟩

/-- C10: for text longer than a positive bound, an absent provider handle
(`llm` attribute missing or None) makes the controller return the
truncation-with-ellipsis fallback immediately; no provider interaction exists
in this case, the result being fully determined by the text and the bound. -/
theorem RAGAgent.no_llm_immediate_fallback (text : String) (maxLength : Int)
    (h0 : 0 < maxLength) (h1 : maxLength < (text.length : Int)) :
    RAGAgent.summarize_text none text maxLength = truncateWithEllipsis text maxLength := by
  have hcond := summarizeGuardFalse h0 h1
  have hle : ¬ ((text.length : Int) ≤ maxLength) := by omega
  simp only [RAGAgent.summarize_text, if_neg hcond, if_neg hle]

/-- C10 (witness): a concrete instantiation of the absent-provider fallback
theorem. -/
theorem RAGAgent.no_llm_immediate_fallback_witness :
    RAGAgent.summarize_text none "abcd" 2 = truncateWithEllipsis "abcd" 2 :=
  RAGAgent.no_llm_immediate_fallback "abcd" 2 (by decide) (by decide)

/-! ## Claim theorems for the caller-facing query boundary -/

/-- Environment whose chain succeeds and whose answer text coincides with a
query error message. -/
def envAnswerLooksLikeError : QueryEnv :=
  { chain := some (fun _ => Except.ok (some "Error processing query: ValueError: boom")),
    llm := none, maxResponseLength := none }

/-- Environment whose chain raises `ValueError("boom")`. -/
def envChainRaises : QueryEnv :=
  { chain := some (fun _ => Except.error { typeName := "ValueError", message := "boom" }),
    llm := none, maxResponseLength := none }

/-- C5 (counterexample): the query boundary does not return a structured
result distinguishing answers from errors. A successful chain run whose
answer text happens to be "Error processing query: ValueError: boom" and a
chain run that raises `ValueError("boom")` produce the identical plain string,
and the web layer wraps the internal failure as a "response" body with
status 200 — not as the structured error form. -/
theorem RAGAgent.query_error_indistinguishable_cex :
    RAGAgent.query envAnswerLooksLikeError "q" = RAGAgent.query envChainRaises "q"
  ∧ RAGAgent.query envChainRaises "q" = "Error processing query: ValueError: boom"
  ∧ app.queryAgent envChainRaises (some [("query", "q")])
      = (ApiBody.jsonResponse "Error processing query: ValueError: boom", 200) := by
  decide

/-- C5 (amended): the query operation never propagates a chain exception
across the boundary — every raised exception is converted into a result
string: the Ollama-unreachable guidance when the message indicates a
connection failure, otherwise a generic message naming the exception type and
cause. The result is, however, a plain string that answers share with error
messages, not a structured answer-versus-error form. -/
theorem RAGAgent.query_converts_chain_failure (env : QueryEnv) (question : String)
    (c : String → Except PyExn (Option String)) (e : PyExn)
    (hc : env.chain = some c) (he : c question = Except.error e) :
    RAGAgent.query env question
      = if pyIn "Connection refused" e.message || pyIn "Max retries exceeded" e.message
        then ollamaUnreachableMsg else queryErrorMsg e := by
  simp only [RAGAgent.query, hc, he]

/-- C5 (witness): a concrete instantiation of the failure-conversion
theorem. -/
theorem RAGAgent.query_converts_chain_failure_witness :
    RAGAgent.query envChainRaises "q"
      = if pyIn "Connection refused" "boom" || pyIn "Max retries exceeded" "boom"
        then ollamaUnreachableMsg
        else queryErrorMsg { typeName := "ValueError", message := "boom" } :=
  RAGAgent.query_converts_chain_failure envChainRaises "q" _ _ rfl rfl

/-- C6: a query submitted while the QA chain is not initialized returns the
fixed descriptive not-ready message, for every provider handle, configured
bound and question; in particular the result does not depend on any retrieval
behavior and no fault is raised. -/
theorem RAGAgent.query_not_ready_message (env : QueryEnv) (question : String)
    (h : env.chain = none) :
    RAGAgent.query env question = notInitializedMsg := by
  simp only [RAGAgent.query, h]

/-- C6 (witness): a concrete instantiation of the not-ready theorem. -/
theorem RAGAgent.query_not_ready_message_witness :
    RAGAgent.query { chain := none, llm := none, maxResponseLength := some 700 } "hi"
      = notInitializedMsg :=
  RAGAgent.query_not_ready_message
    { chain := none, llm := none, maxResponseLength := some 700 } "hi" rfl

/-- Environment with a negative configured response-length bound. -/
def envNegativeBound : QueryEnv :=
  { chain := some (fun _ => Except.ok (some "ab")), llm := none,
    maxResponseLength := some (-1) }

/-- C9 (counterexample): the length controller is not invoked only for
positive bounds. With `MAX_RESPONSE_LENGTH = -1` (not positive) and generated
answer "ab", the truthiness test on the bound passes and the controller runs,
so the query returns the degenerate empty string instead of the raw
answer. -/
theorem RAGAgent.negative_bound_invokes_controller_cex :
    RAGAgent.query envNegativeBound "q" = ""
  ∧ ¬ (0 < (-1 : Int))
  ∧ RAGAgent.query envNegativeBound "q" ≠ "ab" := by
  decide

/-- C9 (amended): the generated answer passes through `query` unchanged
whenever the configured bound (defaulted to 0 when unset) is zero or at least
the answer length; and the length controller is invoked exactly when the
configured bound is nonzero — including negative values — and the answer
strictly exceeds it. -/
theorem RAGAgent.query_passthrough_and_bound_trigger (env : QueryEnv)
    (question ans : String) (c : String → Except PyExn (Option String))
    (hc : env.chain = some c) (ha : c question = Except.ok (some ans)) :
    ((env.maxResponseLength.getD 0 = 0 ∨ (ans.length : Int) ≤ env.maxResponseLength.getD 0) →
        RAGAgent.query env question = ans)
  ∧ (env.maxResponseLength.getD 0 ≠ 0 →
        env.maxResponseLength.getD 0 < (ans.length : Int) →
        RAGAgent.query env question
          = RAGAgent.summarize_text env.llm ans (env.maxResponseLength.getD 0)) := by
  constructor
  · intro h
    simp only [RAGAgent.query, hc, ha, Option.getD_some]
    rw [if_neg]
    rcases h with h | h
    · exact fun hcon => hcon.1 h
    · exact fun hcon => absurd hcon.2 (not_lt.mpr h)
  · intro hne hlt
    simp only [RAGAgent.query, hc, ha, Option.getD_some]
    rw [if_pos ⟨hne, hlt⟩]

/-- Environment with a bound comfortably above the answer length. -/
def envSmallAnswer : QueryEnv :=
  { chain := some (fun _ => Except.ok (some "ab")), llm := none,
    maxResponseLength := some 10 }

/-- C9 (witness): a concrete instantiation of the pass-through theorem. -/
theorem RAGAgent.query_passthrough_and_bound_trigger_witness :
    RAGAgent.query envSmallAnswer "q" = "ab" :=
  (RAGAgent.query_passthrough_and_bound_trigger envSmallAnswer "q" "ab" _ rfl rfl).1
    (by decide)

/-! ## Claim theorems for the document-add lifecycle and the index path -/

/-- Writing a document puts the (name, content) pair into the directory,
whether the write overwrites an existing entry or appends a fresh one. -/
theorem writeDocMem (fs : List (String × String)) (name content : String) :
    (name, content) ∈ writeDoc fs name content := by
  unfold writeDoc
  by_cases h : fs.any (fun p => p.1 == name)
  · rw [if_pos h]
    obtain ⟨p, hp, hpn⟩ := List.any_eq_true.mp h
    have hfp : (fun p => if p.1 == name then (name, content) else p) p
        = (name, content) := by
      simp only [hpn, if_true]
    exact List.mem_map.mpr ⟨p, hp, hfp⟩
  · rw [if_neg h]
    exact List.mem_append_right _ (List.mem_singleton.mpr rfl)

/-- C7: with the embedding build succeeding, `add_document` returns success,
the written document is present in the documents directory of the returned
state, and the returned state carries a persisted index equal to a full fresh
build (load, split, embed) over the post-write document set — the in-memory
store coincides with it and the QA chain is ready. The reindex is synchronous:
the state returned alongside the success flag already reflects the completed
rebuild, and the previously persisted copy has been replaced by the fresh
build. -/
theorem RAGAgent.add_document_reindexes (env : BuildEnv) (st : AgentState)
    (content : String) (filename : Option String) (h : env.embedOk = true) :
    (RAGAgent.addDocument env st content filename).2 = true
  ∧ (RAGAgent.docName env filename, content)
      ∈ (RAGAgent.addDocument env st content filename).1.files
  ∧ (RAGAgent.addDocument env st content filename).1.persistedIndex
      = some (buildChunks env.split
          (loadableDocs (RAGAgent.addDocument env st content filename).1.files))
  ∧ (RAGAgent.addDocument env st content filename).1.vectorStore
      = (RAGAgent.addDocument env st content filename).1.persistedIndex
  ∧ (RAGAgent.addDocument env st content filename).1.qaChainReady = true := by
  obtain ⟨files, pidx, vs, qa⟩ := st
  by_cases hE :
      (loadableDocs (writeDoc files (RAGAgent.docName env filename) content)).isEmpty
  · simp only [RAGAgent.addDocument, RAGAgent.initAgent, hE, h, if_true, true_and,
      and_true]
    exact List.mem_append_left _
      (writeDocMem files (RAGAgent.docName env filename) content)
  · simp only [RAGAgent.addDocument, RAGAgent.initAgent, hE, h, if_true, if_false,
      true_and, and_true]
    exact writeDocMem files (RAGAgent.docName env filename) content

/-- Concrete build environment for the C7 witness: identity-like splitter,
reachable embedding backend. -/
def envBuildOk : BuildEnv :=
  { split := fun d => [d], embedOk := true, loadOk := true, now := 0 }

/-- Concrete agent state for the C7 witness: one document, a stale persisted
index, no chain. -/
def stOneDoc : AgentState :=
  { files := [("a.txt", "hello")], persistedIndex := some ["stale"],
    vectorStore := none, qaChainReady := false }

/-- C7 (witness): a concrete instantiation of the add-document theorem. -/
theorem RAGAgent.add_document_reindexes_witness :
    (RAGAgent.addDocument envBuildOk stOneDoc "world" (some "b.txt")).2 = true
  ∧ (RAGAgent.docName envBuildOk (some "b.txt"), "world")
      ∈ (RAGAgent.addDocument envBuildOk stOneDoc "world" (some "b.txt")).1.files
  ∧ (RAGAgent.addDocument envBuildOk stOneDoc "world" (some "b.txt")).1.persistedIndex
      = some (buildChunks envBuildOk.split
          (loadableDocs (RAGAgent.addDocument envBuildOk stOneDoc "world" (some "b.txt")).1.files))
  ∧ (RAGAgent.addDocument envBuildOk stOneDoc "world" (some "b.txt")).1.vectorStore
      = (RAGAgent.addDocument envBuildOk stOneDoc "world" (some "b.txt")).1.persistedIndex
  ∧ (RAGAgent.addDocument envBuildOk stOneDoc "world" (some "b.txt")).1.qaChainReady = true :=
  RAGAgent.add_document_reindexes envBuildOk stOneDoc "world" (some "b.txt") rfl

/-- C8 (counterexample): the persisted-index storage key is not injective in
the embedding-model identity. The distinct identities "m:1" and "m_1" sanitize
to the same safe name, so they collide on the same persisted index path. -/
theorem RAGAgent.faiss_path_collision_cex :
    RAGAgent.faissIndexPath "documents" "m:1" = RAGAgent.faissIndexPath "documents" "m_1"
  ∧ ("m:1" : String) ≠ "m_1" := by
  decide

/-- C8 (amended): the persisted-index path is derived from the embedding-model
identity by replacing every colon with an underscore; identities that remain
distinct after this sanitization map to distinct storage locations (for a
fixed documents directory). Identities that differ only in colon versus
underscore collide. -/
theorem RAGAgent.faiss_path_injective_after_sanitize
    (docsDir m1 m2 : String) (h : sanitizeModelName m1 ≠ sanitizeModelName m2) :
    RAGAgent.faissIndexPath docsDir m1 ≠ RAGAgent.faissIndexPath docsDir m2 := by
  intro heq
  apply h
  have h1 : (docsDir ++ "/faiss_index_" ++ sanitizeModelName m1).data
      = (docsDir ++ "/faiss_index_" ++ sanitizeModelName m2).data :=
    congrArg String.data heq
  simp only [String.data_append, List.append_assoc] at h1
  exact String.ext (List.append_cancel_left (List.append_cancel_left h1))

/-- C8 (witness): a concrete instantiation of the sanitized-injectivity
theorem. -/
theorem RAGAgent.faiss_path_injective_after_sanitize_witness :
    RAGAgent.faissIndexPath "documents" "nomic-embed-text"
      ≠ RAGAgent.faissIndexPath "documents" "phi3:mini" :=
  RAGAgent.faiss_path_injective_after_sanitize "documents" "nomic-embed-text" "phi3:mini"
    (by decide)
